import Mathlib

/-!
Verification development for the OPENQASM parser core
(`qiskit/qasm/_qasmparser.py`, class `QasmParser`).

The Python parser is a PLY (yacc) grammar with inline semantic actions.
Each `p_*` production method and each `verify_*` helper used by the claims
is embedded below as a pure Lean function.  Errors are modelled by
`Except QErr`, where `QErr` is the list of positional string arguments the
source passes to the `QasmError` constructor at the corresponding raise
site (the `QasmError` class itself lives outside the analysed sources; the
raise sites fully determine which data reaches it).  Python `raise` maps to
returning `.error`, and the short-circuiting of statements after a raise
maps to monadic sequencing in `Except`.

AST nodes come from the `_node` module, which is also outside the analysed
sources; the node records below are modelled from the spec's AST node
model (every node carries its children, and identifier-bearing nodes carry
`name`/`line`/`file`), with `type` tags matching the strings the parser
compares against (`"qreg"`, `"indexed_id"`, `"if"`, `"barrier"`, ...).
-/

set_option linter.unusedVariables false

/-- Positional arguments handed to the `QasmError` constructor at a raise
site. -/
abbrev QErr := List String

/-- An entry stored in a symbol table.  The source stores AST nodes; the
fields below are exactly the attributes the parser reads back out of a
stored node: `name`, `type`, `line`, `file` (required of everything in the
symtab by `update_symtab`), `index` (register size for `Qreg`/`Creg`
nodes, read by `verify_reg` and `id_tuple_list`), `is_bit` (set on gate
bit parameters, read by `verify_declared_bit`), and the derived counts
`n_bits()` / `n_args()` of `Gate`/`Opaque` nodes (read by
`verify_as_gate`). -/
structure SymEntry where
  name : String
  type : String
  index : Int
  is_bit : Bool
  nbits : Nat
  nargs : Nat
  line : Nat
  file : String
deriving DecidableEq, Repr

/-- A symbol table (`self.global_symtab` / `self.current_symtab` are
Python dicts mapping names to nodes). -/
abbrev Symtab := List (String × SymEntry)

/-- Dictionary lookup: `tab[name]` / `name in tab`. -/
def symLookup (tab : Symtab) (n : String) : Option SymEntry :=
  match tab.find? (fun p => p.fst = n) with
  | some p => some p.snd
  | none => none

/-- `self.external_functions = ['sin', 'cos', 'tan', 'exp', 'ln', 'sqrt']`. -/
def external_functions : List String :=
  ["sin", "cos", "tan", "exp", "ln", "sqrt"]

/-- `QasmParser.update_symtab`: insert a node into the current symbol
table, raising a duplicate-declaration error when the name is already
bound in that table. -/
def update_symtab (tab : Symtab) (obj : SymEntry) : Except QErr Symtab :=
  match symLookup tab obj.name with
  | some prev =>
      .error ["Duplicate declaration for",
              obj.type ++ " \x27" ++ obj.name ++ "\x27 at line",
              toString obj.line ++ ", file",
              obj.file ++ ".\nPrevious occurence at line",
              toString prev.line ++ ", file",
              prev.file]
  | none => .ok ((obj.name, obj) :: tab)

/-- An `Id` AST node as used for gate/callee names: `{name, line, file}`. -/
structure IdRef where
  name : String
  line : Nat
  file : String
deriving DecidableEq, Repr

/-- A `primary`: either a plain `Id` node (`type == "id"`) or an
`IndexedId` node (`type == "indexed_id"`, carrying the index). -/
inductive Primary where
  | pid (name : String) (line : Nat) (file : String)
  | pidx (name : String) (index : Int) (line : Nat) (file : String)
deriving DecidableEq, Repr

/-- The heterogeneous node kinds `verify_distinct` accepts: an `id`, an
`indexed_id`, a `primary_list` (children are primaries), or an `id_list`
(children are expected to be plain ids). -/
inductive ONode where
  | oprim (p : Primary)
  | oplist (children : List Primary)
  | oidlist (children : List Primary)
deriving DecidableEq, Repr

/-- Expression AST nodes.  `BinOp op l r` stands for
`node.BinaryOp([node.BinaryOperator(op), l, r])`, `PrefixE op e` for
`node.Prefix([node.UnaryOperator(op), e])`, and `ExternalE` for
`node.External([id, expr])`.  `RealE` carries the literal text of the
real token (the numeric float value itself is not interpreted here); the
constant PI is expanded by the parser to `node.Real(math.pi)`, rendered
below by its decimal literal. -/
inductive Expr where
  | IntE (n : Nat)
  | RealE (r : String)
  | IdE (name : String)
  | PrefixE (op : String) (e : Expr)
  | BinOp (op : String) (l r : Expr)
  | ExternalE (name : String) (arg : Expr)
deriving DecidableEq, Repr

/-- Statement-level AST nodes built by the productions treated below. -/
inductive Node where
  | MagicN (version : String)
  | CnotN (arg1 arg2 : Primary)
  | IfN (guard : IdRef) (nval : Nat) (op : Node)
  | BarrierN (children : List Primary)
  | CustomUnitaryN (callee : IdRef) (args : List Expr) (bits : List Primary)
  | MeasureN (arg1 arg2 : Primary)
  | ResetN (arg : Primary)
  | UniversalUnitaryN (args : List Expr) (arg : Primary)
deriving DecidableEq, Repr

/-- The `type` tag of a statement node, as compared by `p_if`. -/
def nodeType : Node → String
  | .MagicN _ => "magic"
  | .CnotN _ _ => "cnot"
  | .IfN _ _ _ => "if"
  | .BarrierN _ => "barrier"
  | .CustomUnitaryN _ _ _ => "custom_unitary"
  | .MeasureN _ _ => "measure"
  | .ResetN _ => "reset"
  | .UniversalUnitaryN _ _ => "universal_unitary"

/-- `p_magic`: production `magic : MAGIC REAL`.  Builds
`node.Magic([node.Real(program[2])])` from whatever real literal follows
the magic keyword; no check of the version value is performed. -/
def p_magic (version : String) : Except QErr Node :=
  .ok (Node.MagicN version)

/-- `p_magic_0`: error production `magic : MAGIC error`.  Unconditionally
raises a fixed message (`magic = "2.0;"` is inlined into the text).  The
source method has the current line and file available through the lexer
but uses neither; they are taken as arguments here to record that fact. -/
def p_magic_0 (line : Nat) (file : String) : Except QErr Node :=
  .error ["Invalid magic string. Expected \x272.0;\x27.  Is the semicolon missing?"]

/-- `p_if`, main production `if : IF ( id MATCHES NNINTEGER ) quantum_op`:
rejects a guarded `if` and a guarded `barrier`, otherwise builds
`node.If([id, node.Int(n), quantum_op])`.  The guard id (`program[3]`) is
never looked up in either symbol table; both tables are parameters here
only to record that they are not consulted. -/
def p_if (guard : IdRef) (nval : Nat) (op : Node)
    (current_symtab global_symtab : Symtab) : Except QErr Node :=
  if nodeType op = "if" then
    .error ["Nested IF statements not allowed"]
  else if nodeType op = "barrier" then
    .error ["barrier not permitted in IF statement"]
  else
    .ok (Node.IfN guard nval op)

/-- The symtab entry for a `node.Opaque([...])`: name/line/file of the
leading id child, derived `n_bits()` = size of the bit list, derived
`n_args()` = size of the argument list (0 when absent).  Modelled from
the spec's data model for `Gate`/`Opaque` nodes (the `_node` module is
outside the analysed sources). -/
def opaqueEntry (idref : IdRef) (nbits nargs : Nat) : SymEntry :=
  { name := idref.name, type := "opaque", index := 0, is_bit := false,
    nbits := nbits, nargs := nargs, line := idref.line, file := idref.file }

/-- `p_opaque_0`: production `OPAQUE id gate_scope bit_list` (no
parentheses).  Checks the reserved-word list, then pops the gate scope and
declares the node in the restored (outer) table.  `outer` is the table
`pop_scope` restores, which for a top-level declaration is the global
symtab. -/
def p_opaque_0 (idref : IdRef) (bit_list : List IdRef) (outer : Symtab) :
    Except QErr (SymEntry × Symtab) :=
  let entry := opaqueEntry idref bit_list.length 0
  if idref.name ∈ external_functions then
    .error ["OPAQUE names cannot be reserved words. Received \x27" ++ idref.name ++ "\x27"]
  else
    match update_symtab outer entry with
    | .ok tab => .ok (entry, tab)
    | .error e => .error e

/-- `p_opaque_1`: production `OPAQUE id gate_scope ( ) bit_list` (empty
parentheses).  Unlike `p_opaque_0` and `p_opaque_2`, this production
performs no reserved-word check: it builds the node, pops the scope and
declares it directly. -/
def p_opaque_1 (idref : IdRef) (bit_list : List IdRef) (outer : Symtab) :
    Except QErr (SymEntry × Symtab) :=
  let entry := opaqueEntry idref bit_list.length 0
  match update_symtab outer entry with
  | .ok tab => .ok (entry, tab)
  | .error e => .error e

/-- `p_opaque_2`: production `OPAQUE id gate_scope ( gate_id_list ) bit_list`.
Same reserved-word check as `p_opaque_0`; the declared entry additionally
derives `n_args()` from the argument id list. -/
def p_opaque_2 (idref : IdRef) (gate_id_list : List IdRef) (bit_list : List IdRef)
    (outer : Symtab) : Except QErr (SymEntry × Symtab) :=
  let entry := opaqueEntry idref bit_list.length gate_id_list.length
  if idref.name ∈ external_functions then
    .error ["OPAQUE names cannot be reserved words. Received \x27" ++ idref.name ++ "\x27"]
  else
    match update_symtab outer entry with
    | .ok tab => .ok (entry, tab)
    | .error e => .error e

/-- Name carried by a primary node (`obj.name`). -/
def primName : Primary → String
  | .pid n _ _ => n
  | .pidx n _ _ _ => n

/-- Source line carried by a primary node (`obj.line`). -/
def primLine : Primary → Nat
  | .pid _ l _ => l
  | .pidx _ _ l _ => l

/-- Source file carried by a primary node (`obj.file`). -/
def primFile : Primary → String
  | .pid _ _ f => f
  | .pidx _ _ _ f => f

/-- `QasmParser.verify_reg`: resolve a primary in the global symtab,
require its entry kind to equal `object_type`, and for an `indexed_id`
additionally require `0 <= index < entry.index` (the declared register
size), raising the out-of-bounds error otherwise. -/
def verify_reg (obj : Primary) (object_type : String) (global_symtab : Symtab) :
    Except QErr Unit :=
  match symLookup global_symtab (primName obj) with
  | none =>
      .error ["Cannot find definition for", object_type,
              "\x27" ++ primName obj ++ "\x27",
              "at line", toString (primLine obj), "file", primFile obj]
  | some g_sym =>
      if g_sym.type ≠ object_type then
        .error ["Type for \x27" ++ g_sym.name ++ "\x27 should be \x27" ++ object_type
                  ++ "\x27 but was found to be \x27" ++ g_sym.type ++ "\x27",
                "line", toString (primLine obj), "file", primFile obj]
      else
        match obj with
        | .pid _ _ _ => .ok ()
        | .pidx _ ndx _ _ =>
            if ndx < 0 ∨ ndx ≥ g_sym.index then
              .error ["Register index for \x27" ++ g_sym.name
                        ++ "\x27 out of bounds. Index is",
                      toString ndx, "bound is 0 <= index <", toString g_sym.index,
                      "at line", toString (primLine obj), "file", primFile obj]
            else
              .ok ()

/-- `QasmParser.verify_as_gate`: the callee must resolve in the global
symtab (else the undeclared-gate error) to a `gate` or `opaque` entry
(else the type error); the bit list size must equal the declared
`n_bits()`; a supplied argument list must have size equal to the declared
`n_args()`, and an absent argument list requires `n_args() == 0`.  (In the
source `arglist` is an `ExpressionList` node or the default `None`, and
`if arglist:` distinguishes exactly those two cases, since an
`ExpressionList` node object is always truthy.) -/
def verify_as_gate (obj : IdRef) (bitlist : List Primary)
    (arglist : Option (List Expr)) (global_symtab : Symtab) : Except QErr Unit :=
  match symLookup global_symtab obj.name with
  | none =>
      .error ["Cannot find gate definition for \x27" ++ obj.name ++ "\x27, line",
              toString obj.line, "file", obj.file]
  | some g_sym =>
      if ¬ (g_sym.type = "gate" ∨ g_sym.type = "opaque") then
        .error ["\x27" ++ obj.name ++ "\x27 is used as a gate or opaque call but the symbol is neither; it is a \x27"
                  ++ g_sym.type ++ "\x27 line",
                toString obj.line, "file", obj.file]
      else if g_sym.nbits ≠ bitlist.length then
        .error ["Gate or opaque call to \x27" ++ obj.name ++ "\x27 uses",
                toString bitlist.length, "qubits but is declared for",
                toString g_sym.nbits, "qubits", "line",
                toString obj.line, "file", obj.file]
      else
        match arglist with
        | some args =>
            if g_sym.nargs ≠ args.length then
              .error ["Gate or opaque call to \x27" ++ obj.name ++ "\x27 uses",
                      toString args.length, "qubits but is declared for",
                      toString g_sym.nargs, "qubits", "line",
                      toString obj.line, "file", obj.file]
            else
              .ok ()
        | none =>
            if g_sym.nargs > 0 then
              .error ["Gate or opaque call to \x27" ++ obj.name
                        ++ "\x27 has no arguments but is declared for",
                      toString g_sym.nargs, "qubits", "line",
                      toString obj.line, "file", obj.file]
            else
              .ok ()

/-- `QasmParser.id_tuple_list`: the `(name, index)` pairs contributed by a
plain id node.  The name is resolved in the current symtab first, falling
back to the global one (`try/except KeyError`); a name absent from both
escapes as an uncaught `KeyError` in the source, modelled as an error
value.  A `qreg`/`creg` entry contributes one pair per index
`0 .. size-1` (Python `range` of a non-positive size is empty); any other
entry contributes the single pair `(name, -1)`. -/
def id_tuple_list (current_symtab global_symtab : Symtab) (idname : String) :
    Except QErr (List (String × Int)) :=
  let g_sym? :=
    match symLookup current_symtab idname with
    | some e => some e
    | none => symLookup global_symtab idname
  match g_sym? with
  | none => .error ["KeyError: \x27" ++ idname ++ "\x27"]
  | some g_sym =>
      if g_sym.type = "qreg" ∨ g_sym.type = "creg" then
        .ok ((List.range g_sym.index.toNat).map (fun (idx : Nat) => (idname, (idx : Int))))
      else
        .ok [(idname, -1)]

/-- One iteration of the `verify_distinct` flattening loop.  The running
state is the accumulated `bit_list` plus the `line_number`/`filename`
trackers (initialised to `-1` / `""`), which are overwritten with the
position of each node (or of each list child) as it is processed. -/
def distinct_step (current_symtab global_symtab : Symtab)
    (st : List (String × Int) × Int × String) (n : ONode) :
    Except QErr (List (String × Int) × Int × String) :=
  match n with
  | .oprim (.pid nm l f) =>
      match id_tuple_list current_symtab global_symtab nm with
      | .ok ps => .ok (st.1 ++ ps, (l : Int), f)
      | .error e => .error e
  | .oprim (.pidx nm i l f) => .ok (st.1 ++ [(nm, i)], (l : Int), f)
  | .oplist cs =>
      cs.foldlM (fun acc c =>
        match c with
        | .pid nm l f =>
            match id_tuple_list current_symtab global_symtab nm with
            | .ok ps => .ok (acc.1 ++ ps, (l : Int), f)
            | .error e => .error e
        | .pidx nm i l f => .ok (acc.1 ++ [(nm, i)], (l : Int), f)) st
  | .oidlist cs =>
      cs.foldlM (fun acc c =>
        match c with
        | .pid nm l f =>
            match id_tuple_list current_symtab global_symtab nm with
            | .ok ps => .ok (acc.1 ++ ps, (l : Int), f)
            | .error e => .error e
        | .pidx nm i l f => .error ["internal error, id_tuple_list"]) st

/-- The flattening phase of `verify_distinct`: fold `distinct_step` over
the node list, producing the flat `bit_list` of `(name, index)` pairs and
the final position trackers. -/
def distinct_flatten (current_symtab global_symtab : Symtab) (nodes : List ONode) :
    Except QErr (List (String × Int) × Int × String) :=
  nodes.foldlM (distinct_step current_symtab global_symtab) ([], -1, "")

/-- `QasmParser.verify_distinct`: flatten the operand nodes to
`(name, index)` pairs and fail iff the flat list contains a repeated pair
(`len(bit_list) != len(set(bit_list))`). -/
def verify_distinct (current_symtab global_symtab : Symtab) (nodes : List ONode) :
    Except QErr Unit :=
  match distinct_flatten current_symtab global_symtab nodes with
  | .error e => .error e
  | .ok (bit_list, line_number, filename) =>
      if bit_list.length ≠ bit_list.dedup.length then
        .error ["duplicate identifiers at line " ++ toString line_number
                  ++ " file " ++ filename]
      else
        .ok ()

/-- `p_unitary_op_1`: production `unitary_op : CX primary , primary`.
Builds `node.Cnot([program[2], program[4]])`, verifies both primaries as
`qreg` registers, and checks the two operands are distinct.  No
size-compatibility check between the two operands is performed (the
source carries a TODO to that effect). -/
def p_unitary_op_1 (prim1 prim2 : Primary)
    (current_symtab global_symtab : Symtab) : Except QErr Node := do
  let _ ← verify_reg prim1 "qreg" global_symtab
  let _ ← verify_reg prim2 "qreg" global_symtab
  let _ ← verify_distinct current_symtab global_symtab
            [ONode.oprim prim1, ONode.oprim prim2]
  .ok (Node.CnotN prim1 prim2)

/-- Tokens of the expression sub-grammar: `NNINTEGER`, `REAL`, `PI`, `ID`,
parentheses, and the five operator punctuation tokens. -/
inductive Tok where
  | nnint (n : Nat)
  | realTok (r : String)
  | piTok
  | idTok (name : String)
  | lpar
  | rpar
  | plusTok
  | minusTok
  | starTok
  | slashTok
  | caretTok
deriving DecidableEq, Repr

/-!
The expression sub-grammar, as the left-recursive production cascade of
the source (lowest level of the cascade first):

  unary                     : NNINTEGER | REAL | PI | id
                            | ( expression ) | id ( expression )
  prefix_expression         : unary
                            | + prefix_expression | - prefix_expression
  additive_expression       : prefix_expression
                            | additive_expression + prefix_expression
                            | additive_expression - prefix_expression
  multiplicative_expression : additive_expression
                            | multiplicative_expression * additive_expression
                            | multiplicative_expression / additive_expression
  expression                : multiplicative_expression
                            | expression ^ multiplicative_expression

Each left-recursive level is rendered as a parse-then-loop pair below;
the loop folds further operands onto the left, which is exactly the tree
shape the left-recursive LALR reductions build.  The `fuel` argument only
serves termination; `parse_expression_top` supplies more than any input
of the given length can consume.
-/

mutual

/-- `unary`: terminal expressions, plus the parenthesized form and the
external call form; `p_unary_6` checks the callee of a call against the
external-function whitelist at parse time. -/
def parse_unary (fuel : Nat) (ts : List Tok) : Except QErr (Expr × List Tok) :=
  match fuel with
  | 0 => .error ["out of fuel"]
  | f + 1 =>
    match ts with
    | Tok.nnint n :: rest => .ok (Expr.IntE n, rest)
    | Tok.realTok r :: rest => .ok (Expr.RealE r, rest)
    | Tok.piTok :: rest => .ok (Expr.RealE "3.141592653589793", rest)
    | Tok.idTok x :: Tok.lpar :: rest =>
        if x ∉ external_functions then
          .error ["Illegal external function call: ", x]
        else
          match parse_expression f rest with
          | .ok (e, Tok.rpar :: rest2) => .ok (Expr.ExternalE x e, rest2)
          | .ok _ => .error ["SyntaxError"]
          | .error err => .error err
    | Tok.idTok x :: rest => .ok (Expr.IdE x, rest)
    | Tok.lpar :: rest =>
        match parse_expression f rest with
        | .ok (e, Tok.rpar :: rest2) => .ok (e, rest2)
        | .ok _ => .error ["SyntaxError"]
        | .error err => .error err
    | _ => .error ["SyntaxError"]

/-- `prefix_expression`: a chain of unary `+`/`-` wrapped as `Prefix`
nodes around a `unary`. -/
def parse_prefix_expression (fuel : Nat) (ts : List Tok) :
    Except QErr (Expr × List Tok) :=
  match fuel with
  | 0 => .error ["out of fuel"]
  | f + 1 =>
    match ts with
    | Tok.plusTok :: rest =>
        match parse_prefix_expression f rest with
        | .ok (e, r) => .ok (Expr.PrefixE "+" e, r)
        | .error err => .error err
    | Tok.minusTok :: rest =>
        match parse_prefix_expression f rest with
        | .ok (e, r) => .ok (Expr.PrefixE "-" e, r)
        | .error err => .error err
    | _ => parse_unary f ts

/-- `additive_expression`: first operand, then the left-recursive loop. -/
def parse_additive_expression (fuel : Nat) (ts : List Tok) :
    Except QErr (Expr × List Tok) :=
  match fuel with
  | 0 => .error ["out of fuel"]
  | f + 1 =>
    match parse_prefix_expression f ts with
    | .ok (e, r) => additive_loop f e r
    | .error err => .error err

/-- Left-recursive reductions
`additive_expression : additive_expression + prefix_expression`
and the `-` form: each further operand becomes the right child of a new
`BinaryOp` whose left child is the tree built so far. -/
def additive_loop (fuel : Nat) (acc : Expr) (ts : List Tok) :
    Except QErr (Expr × List Tok) :=
  match fuel with
  | 0 => .error ["out of fuel"]
  | f + 1 =>
    match ts with
    | Tok.plusTok :: rest =>
        match parse_prefix_expression f rest with
        | .ok (e, r) => additive_loop f (Expr.BinOp "+" acc e) r
        | .error err => .error err
    | Tok.minusTok :: rest =>
        match parse_prefix_expression f rest with
        | .ok (e, r) => additive_loop f (Expr.BinOp "-" acc e) r
        | .error err => .error err
    | _ => .ok (acc, ts)

/-- `multiplicative_expression`: first operand, then the loop. -/
def parse_multiplicative_expression (fuel : Nat) (ts : List Tok) :
    Except QErr (Expr × List Tok) :=
  match fuel with
  | 0 => .error ["out of fuel"]
  | f + 1 =>
    match parse_additive_expression f ts with
    | .ok (e, r) => multiplicative_loop f e r
    | .error err => .error err

/-- Left-recursive reductions
`multiplicative_expression : multiplicative_expression * additive_expression`
and the `/` form.  Note the operands of `*` and `/` are whole
`additive_expression`s: in this cascade the additive level sits below the
multiplicative one. -/
def multiplicative_loop (fuel : Nat) (acc : Expr) (ts : List Tok) :
    Except QErr (Expr × List Tok) :=
  match fuel with
  | 0 => .error ["out of fuel"]
  | f + 1 =>
    match ts with
    | Tok.starTok :: rest =>
        match parse_additive_expression f rest with
        | .ok (e, r) => multiplicative_loop f (Expr.BinOp "*" acc e) r
        | .error err => .error err
    | Tok.slashTok :: rest =>
        match parse_additive_expression f rest with
        | .ok (e, r) => multiplicative_loop f (Expr.BinOp "/" acc e) r
        | .error err => .error err
    | _ => .ok (acc, ts)

/-- `expression`: first operand, then the `^` loop. -/
def parse_expression (fuel : Nat) (ts : List Tok) :
    Except QErr (Expr × List Tok) :=
  match fuel with
  | 0 => .error ["out of fuel"]
  | f + 1 =>
    match parse_multiplicative_expression f ts with
    | .ok (e, r) => expression_loop f e r
    | .error err => .error err

/-- Left-recursive reduction
`expression : expression ^ multiplicative_expression` (`p_expression_1`):
`^` sits at the top of the cascade, and chained `^` folds to the left. -/
def expression_loop (fuel : Nat) (acc : Expr) (ts : List Tok) :
    Except QErr (Expr × List Tok) :=
  match fuel with
  | 0 => .error ["out of fuel"]
  | f + 1 =>
    match ts with
    | Tok.caretTok :: rest =>
        match parse_multiplicative_expression f rest with
        | .ok (e, r) => expression_loop f (Expr.BinOp "^" acc e) r
        | .error err => .error err
    | _ => .ok (acc, ts)

end

/-- Parse a complete token sequence as an `expression`, with fuel ample
for the input length. -/
def parse_expression_top (ts : List Tok) : Except QErr (Expr × List Tok) :=
  parse_expression (8 * ts.length + 8) ts

/-- The symtab entry stored by `p_qreg_decl` for `qreg nm[sz];`: the
`node.Qreg` node, whose `type` is `"qreg"` and whose `index` is the
declared size. -/
def qregEntry (nm : String) (sz : Int) (line : Nat) (file : String) : SymEntry :=
  { name := nm, type := "qreg", index := sz, is_bit := false,
    nbits := 0, nargs := 0, line := line, file := file }

/-- The symtab entry stored by `p_gate_decl_*` for a gate declaration:
the `node.Gate` node, with its derived `n_bits()` / `n_args()` counts. -/
def gateEntry (nm : String) (nbits nargs : Nat) (line : Nat) (file : String) : SymEntry :=
  { name := nm, type := "gate", index := 0, is_bit := false,
    nbits := nbits, nargs := nargs, line := line, file := file }

/-- A global symtab holding one quantum register `q` of size 2. -/
def qTab : Symtab := [("q", qregEntry "q" 2 1 "f.qasm")]

/-- A global symtab holding two quantum registers of different sizes:
`a` of size 2 and `b` of size 3. -/
def abTab : Symtab := [("a", qregEntry "a" 2 1 "f.qasm"), ("b", qregEntry "b" 3 1 "f.qasm")]

/-- A global symtab holding one gate `g` with two bit parameters and no
arguments. -/
def gTab : Symtab := [("g", gateEntry "g" 2 0 1 "f.qasm")]

/-- A list has the same length as its deduplication exactly when it has
no duplicates (the `len(bit_list) != len(set(bit_list))` test of
`verify_distinct` detects a repeat exactly when one exists). -/
theorem length_eq_dedup_iff_nodup {α : Type} [DecidableEq α] (l : List α) :
    l.length = l.dedup.length ↔ l.Nodup := by
  constructor
  · intro h
    rw [← List.dedup_eq_self]
    exact (l.dedup_sublist).eq_of_length h.symm
  · intro h
    rw [List.dedup_eq_self.2 h]

/-- C1 (counterexample): the input `a + b * c` does not parse to
`a + (b * c)`: it parses to `(a + b) * c`, so `*` does not bind tighter
than `+`. -/
theorem C1_counterexample :
    parse_expression_top
        [Tok.idTok "a", Tok.plusTok, Tok.idTok "b", Tok.starTok, Tok.idTok "c"]
      = Except.ok (Expr.BinOp "*" (Expr.BinOp "+" (Expr.IdE "a") (Expr.IdE "b"))
          (Expr.IdE "c"), [])
    ∧ Expr.BinOp "*" (Expr.BinOp "+" (Expr.IdE "a") (Expr.IdE "b")) (Expr.IdE "c")
      ≠ Expr.BinOp "+" (Expr.IdE "a") (Expr.BinOp "*" (Expr.IdE "b") (Expr.IdE "c")) :=
  ⟨rfl, by decide⟩

/-- C1 (amended): the production cascade places `^` at the top, `*`/`/`
in the middle and `+`/`-` at the bottom, so the effective binding is the
reverse of the conventional one: additive operators bind tightest and
power loosest.  For all identifiers `a`, `b`, `c`, the input `a + b * c`
parses to `(a + b) * c`, and `a * b ^ c` parses to `(a * b) ^ c`. -/
theorem C1_grammar_precedence_inverted :
    (∀ a b c : String,
      parse_expression_top
          [Tok.idTok a, Tok.plusTok, Tok.idTok b, Tok.starTok, Tok.idTok c]
        = Except.ok (Expr.BinOp "*" (Expr.BinOp "+" (Expr.IdE a) (Expr.IdE b))
            (Expr.IdE c), []))
    ∧ (∀ a b c : String,
      parse_expression_top
          [Tok.idTok a, Tok.starTok, Tok.idTok b, Tok.caretTok, Tok.idTok c]
        = Except.ok (Expr.BinOp "^" (Expr.BinOp "*" (Expr.IdE a) (Expr.IdE b))
            (Expr.IdE c), [])) :=
  ⟨fun a b c => rfl, fun a b c => rfl⟩

/-- C8: chained power operators group left-associatively: for all
identifiers `a`, `b`, `c`, the input `a ^ b ^ c` parses to `(a ^ b) ^ c`,
a `BinaryOp` for `^` whose left child is the `BinaryOp` for `^` of `a`
and `b`. -/
theorem C8_power_left_assoc (a b c : String) :
    parse_expression_top
        [Tok.idTok a, Tok.caretTok, Tok.idTok b, Tok.caretTok, Tok.idTok c]
      = Except.ok (Expr.BinOp "^" (Expr.BinOp "^" (Expr.IdE a) (Expr.IdE b))
          (Expr.IdE c), []) :=
  rfl

/-- C3 (counterexample): a version header carrying the version value
`3.5`, which differs from the required `2.0`, is accepted by the
version-header production rather than failing. -/
theorem C3_counterexample :
    p_magic "3.5" = Except.ok (Node.MagicN "3.5") ∧ ("3.5" : String) ≠ "2.0" :=
  ⟨rfl, by decide⟩

/-- C3 (amended): the version-header production performs no check of the
version value: any real literal after the magic keyword is accepted and
wrapped in the `Magic` node unchanged.  Only a malformed header (magic
keyword not followed by a real literal, the `MAGIC error` production)
fails fatally, with a fixed message. -/
theorem C3_magic_no_version_check :
    (∀ version : String, p_magic version = Except.ok (Node.MagicN version))
    ∧ (∀ (line : Nat) (file : String),
        p_magic_0 line file
          = Except.error
              ["Invalid magic string. Expected \x272.0;\x27.  Is the semicolon missing?"]) :=
  ⟨fun _ => rfl, fun _ _ => rfl⟩

/-- C2 (counterexample): declaring an opaque named `sin` — a member of
the external-function whitelist — through the empty-parentheses arity
(`opaque : OPAQUE id gate_scope ( ) bit_list`) succeeds instead of
failing with the reserved-name error. -/
theorem C2_counterexample :
    "sin" ∈ external_functions
    ∧ (p_opaque_1 (IdRef.mk "sin" 1 "f.qasm") [IdRef.mk "q1" 1 "f.qasm"] []).isOk = true :=
  ⟨by decide, rfl⟩

/-- C2 (amended): the reserved-name check on opaque declarations is
performed in the no-parentheses and argument-list arities, which fail
with the reserved-name error for every whitelisted name, but it is
omitted in the empty-parentheses arity, which declares the opaque
normally (succeeding whenever the name is not already bound in the
enclosing scope). -/
theorem C2_opaque_reserved (idref : IdRef) (bits args : List IdRef) (outer st : Symtab)
    (hres : idref.name ∈ external_functions)
    (hfree : symLookup st idref.name = none) :
    p_opaque_0 idref bits outer
      = Except.error
          ["OPAQUE names cannot be reserved words. Received \x27" ++ idref.name ++ "\x27"]
    ∧ p_opaque_2 idref args bits outer
      = Except.error
          ["OPAQUE names cannot be reserved words. Received \x27" ++ idref.name ++ "\x27"]
    ∧ (p_opaque_1 idref bits st).isOk = true := by
  refine ⟨?_, ?_, ?_⟩
  · simp [p_opaque_0, hres]
  · simp [p_opaque_2, hres]
  · simp only [p_opaque_1, update_symtab, opaqueEntry, hfree]
    rfl

/-- C2 (witness): the amended statement at the concrete reserved name
`sin` with an empty enclosing scope. -/
theorem C2_witness :
    p_opaque_0 (IdRef.mk "sin" 1 "f.qasm") [IdRef.mk "q1" 1 "f.qasm"] []
      = Except.error
          ["OPAQUE names cannot be reserved words. Received \x27" ++ "sin" ++ "\x27"]
    ∧ p_opaque_2 (IdRef.mk "sin" 1 "f.qasm") [IdRef.mk "t" 1 "f.qasm"]
          [IdRef.mk "q1" 1 "f.qasm"] []
      = Except.error
          ["OPAQUE names cannot be reserved words. Received \x27" ++ "sin" ++ "\x27"]
    ∧ (p_opaque_1 (IdRef.mk "sin" 1 "f.qasm") [IdRef.mk "q1" 1 "f.qasm"] []).isOk = true :=
  C2_opaque_reserved (IdRef.mk "sin" 1 "f.qasm") [IdRef.mk "q1" 1 "f.qasm"]
    [IdRef.mk "t" 1 "f.qasm"] [] [] (by decide) rfl

/-- C9: the guard identifier of a conditional is never resolved against
any symbol table: for a guarded operation that is neither an `if` nor a
`barrier`, the `if` production succeeds even when the guard identifier is
declared in no scope, and its result does not depend on either symbol
table at all. -/
theorem C9_if_guard_never_resolved (current_symtab global_symtab : Symtab)
    (guard : IdRef) (nval : Nat) (op : Node)
    (hcur : symLookup current_symtab guard.name = none)
    (hglob : symLookup global_symtab guard.name = none)
    (hif : nodeType op ≠ "if") (hbar : nodeType op ≠ "barrier") :
    p_if guard nval op current_symtab global_symtab = Except.ok (Node.IfN guard nval op)
    ∧ ∀ (cur2 glob2 : Symtab),
        p_if guard nval op cur2 glob2 = p_if guard nval op current_symtab global_symtab := by
  constructor
  · simp [p_if, hif, hbar]
  · intro cur2 glob2
    rfl

/-- C9 (witness): a conditional `if (x == 1) reset q;` with `x` declared
nowhere parses to the `If` node. -/
theorem C9_witness :
    p_if (IdRef.mk "x" 2 "f.qasm") 1 (Node.ResetN (Primary.pid "q" 2 "f.qasm")) [] []
      = Except.ok (Node.IfN (IdRef.mk "x" 2 "f.qasm") 1
          (Node.ResetN (Primary.pid "q" 2 "f.qasm"))) :=
  (C9_if_guard_never_resolved [] [] (IdRef.mk "x" 2 "f.qasm") 1
    (Node.ResetN (Primary.pid "q" 2 "f.qasm")) rfl rfl (by decide) (by decide)).1

/-- Sequencing after a successful check: `ok` feeds the continuation. -/
theorem except_ok_bind {ε α β : Type} (a : α) (f : α → Except ε β) :
    ((Except.ok a : Except ε α) >>= f) = f a := rfl

/-- Sequencing after a raise: the error short-circuits the rest. -/
theorem except_error_bind {ε α β : Type} (e : ε) (f : α → Except ε β) :
    ((Except.error e : Except ε α) >>= f) = Except.error e := rfl

/-- C5: for a gate or opaque call whose callee resolves globally to a
gate or opaque entry, `verify_as_gate` fails exactly when the bit-list
length differs from the declared bit-parameter count, or a supplied
argument list has a length different from the declared argument count,
or no argument list is supplied while the declared argument count is
nonzero; otherwise it succeeds. -/
theorem C5_call_arity (obj : IdRef) (bitlist : List Primary)
    (arglist : Option (List Expr)) (glob : Symtab) (e : SymEntry)
    (hres : symLookup glob obj.name = some e)
    (htype : e.type = "gate" ∨ e.type = "opaque") :
    (verify_as_gate obj bitlist arglist glob).isOk = false ↔
      (e.nbits ≠ bitlist.length ∨
        (match arglist with
         | some args => e.nargs ≠ args.length
         | none => 0 < e.nargs)) := by
  rcases arglist with _ | args <;>
    · simp only [verify_as_gate, hres]
      split_ifs with h1 h2 <;> simp_all [Except.isOk, Except.toBool]

/-- C5 (witness): a call to the two-bit, zero-argument gate `g` with one
bit and no argument list fails (the bit counts differ), matching the
stated condition. -/
theorem C5_witness :
    (verify_as_gate (IdRef.mk "g" 3 "f.qasm") [Primary.pid "q" 3 "f.qasm"] none gTab).isOk
        = false ↔
      ((gateEntry "g" 2 0 1 "f.qasm").nbits ≠ [Primary.pid "q" 3 "f.qasm"].length ∨
        0 < (gateEntry "g" 2 0 1 "f.qasm").nargs) :=
  C5_call_arity (IdRef.mk "g" 3 "f.qasm") [Primary.pid "q" 3 "f.qasm"] none gTab
    (gateEntry "g" 2 0 1 "f.qasm") rfl (Or.inl rfl)

/-- C6: for an indexed reference `q[k]` to a register declared with
positive size, `verify_reg` fails exactly when `k` lies outside
`[0, size)`, and the references at index `0` and at index `size - 1`
succeed. -/
theorem C6_index_bounds (nm : String) (k : Int) (line : Nat) (file : String)
    (glob : Symtab) (e : SymEntry)
    (hres : symLookup glob nm = some e) (htype : e.type = "qreg")
    (hpos : 0 < e.index) :
    ((verify_reg (Primary.pidx nm k line file) "qreg" glob).isOk = false
       ↔ (k < 0 ∨ e.index ≤ k))
    ∧ (verify_reg (Primary.pidx nm 0 line file) "qreg" glob).isOk = true
    ∧ (verify_reg (Primary.pidx nm (e.index - 1) line file) "qreg" glob).isOk = true := by
  refine ⟨?_, ?_, ?_⟩
  · simp only [verify_reg, primName, primLine, primFile, hres]
    rw [if_neg (not_not_intro htype)]
    split_ifs with h <;> simp_all [Except.isOk, Except.toBool]
  · simp only [verify_reg, primName, primLine, primFile, hres]
    rw [if_neg (not_not_intro htype)]
    rw [if_neg (by omega)]
    rfl
  · simp only [verify_reg, primName, primLine, primFile, hres]
    rw [if_neg (not_not_intro htype)]
    rw [if_neg (by omega)]
    rfl

/-- C6 (witness): against the size-2 register `q`, the reference `q[5]`
fails the bound check while `q[0]` and `q[1]` succeed. -/
theorem C6_witness :
    ((verify_reg (Primary.pidx "q" 5 3 "f.qasm") "qreg" qTab).isOk = false
       ↔ ((5 : Int) < 0 ∨ (qregEntry "q" 2 1 "f.qasm").index ≤ 5))
    ∧ (verify_reg (Primary.pidx "q" 0 3 "f.qasm") "qreg" qTab).isOk = true
    ∧ (verify_reg (Primary.pidx "q" ((qregEntry "q" 2 1 "f.qasm").index - 1) 3 "f.qasm")
          "qreg" qTab).isOk = true :=
  C6_index_bounds "q" 5 3 "f.qasm" qTab (qregEntry "q" 2 1 "f.qasm") rfl rfl (by decide)

/-- C7 (counterexample): the fatal syntactic error for a malformed
version header is the same error value regardless of the line and file of
the offending construct, so it cannot retain either. -/
theorem C7_counterexample : p_magic_0 5 "a.qasm" = p_magic_0 99 "b.qasm" :=
  rfl

/-- C7 (amended): errors reach the caller as a message assembled from
strings, not a structured record; some checks do embed the offending
construct's line and file in that message (the out-of-bounds error of
`verify_reg` carries both), but not all do — the malformed-version-header
error is a fixed message independent of line and file, so a caller cannot
always recover a pointer into the source text. -/
theorem C7_error_payloads :
    (∀ (l1 l2 : Nat) (f1 f2 : String), p_magic_0 l1 f1 = p_magic_0 l2 f2)
    ∧ (∀ (nm : String) (k : Int) (line : Nat) (file : String)
          (glob : Symtab) (e : SymEntry),
        symLookup glob nm = some e → e.type = "qreg" → (k < 0 ∨ e.index ≤ k) →
        ∃ args : QErr,
          verify_reg (Primary.pidx nm k line file) "qreg" glob = Except.error args
            ∧ toString line ∈ args ∧ file ∈ args) := by
  constructor
  · intro l1 l2 f1 f2
    rfl
  · intro nm k line file glob e hres htype hk
    refine ⟨["Register index for \x27" ++ e.name ++ "\x27 out of bounds. Index is",
             toString k, "bound is 0 <= index <", toString e.index,
             "at line", toString line, "file", file], ?_, ?_, ?_⟩
    · simp only [verify_reg, primName, primLine, primFile, hres]
      rw [if_neg (not_not_intro htype)]
      rw [if_pos hk]
    · simp
    · simp

/-- C7 (witness): the amended statement at the concrete out-of-bounds
reference `q[5]` on line 3 of `f.qasm`. -/
theorem C7_witness :
    ∃ args : QErr,
      verify_reg (Primary.pidx "q" 5 3 "f.qasm") "qreg" qTab = Except.error args
        ∧ toString 3 ∈ args ∧ "f.qasm" ∈ args :=
  C7_error_payloads.2 "q" 5 3 "f.qasm" qTab (qregEntry "q" 2 1 "f.qasm") rfl rfl
    (by decide)

/-- C4: `verify_distinct` flattens its operand list into
`(register_name, index)` pairs — via `id_tuple_list`, a whole-register id
contributing one pair per index of the register and a plain non-register
id the single pair `(name, -1)`, while an indexed id contributes
`(name, index)` — and it fails exactly when the flattened list contains a
repeated pair.  Consequently `CX q[k], q[k];` on an in-range index always
fails, `CX q[0], q[1];` on a register of size at least 2 always succeeds,
and on the concrete size-2 register `q` the duplicate case raises the
duplicate-identifiers error. -/
theorem C4_distinct :
    (∀ (cur glob : Symtab) (nodes : List ONode) (bl : List (String × Int))
        (ln : Int) (fn : String),
        distinct_flatten cur glob nodes = Except.ok (bl, ln, fn) →
        ((verify_distinct cur glob nodes).isOk = true ↔ bl.Nodup))
    ∧ (∀ (glob : Symtab) (q : String) (e : SymEntry) (l : Nat) (f : String),
        symLookup glob q = some e → e.type = "qreg" → 0 < e.index →
        (p_unitary_op_1 (Primary.pidx q 0 l f) (Primary.pidx q 0 l f) glob glob).isOk
          = false)
    ∧ (∀ (glob : Symtab) (q : String) (e : SymEntry) (l : Nat) (f : String),
        symLookup glob q = some e → e.type = "qreg" → 2 ≤ e.index →
        p_unitary_op_1 (Primary.pidx q 0 l f) (Primary.pidx q 1 l f) glob glob
          = Except.ok (Node.CnotN (Primary.pidx q 0 l f) (Primary.pidx q 1 l f)))
    ∧ p_unitary_op_1 (Primary.pidx "q" 0 2 "f.qasm") (Primary.pidx "q" 0 2 "f.qasm")
          qTab qTab
        = Except.error ["duplicate identifiers at line 2 file f.qasm"] := by
  have key : ∀ (cur glob : Symtab) (nodes : List ONode) (bl : List (String × Int))
      (ln : Int) (fn : String),
      distinct_flatten cur glob nodes = Except.ok (bl, ln, fn) →
      ((verify_distinct cur glob nodes).isOk = true ↔ bl.Nodup) := by
    intro cur glob nodes bl ln fn hflat
    simp only [verify_distinct, hflat]
    split_ifs with h
    · simp only [Except.isOk, Except.toBool, Bool.false_eq_true, false_iff]
      exact fun hnd => h ((length_eq_dedup_iff_nodup bl).2 hnd)
    · simp only [Except.isOk, Except.toBool, true_iff]
      exact (length_eq_dedup_iff_nodup bl).1 (not_ne_iff.mp h)
  refine ⟨key, ?_, ?_, ?_⟩
  · intro glob q e l f hres htype hpos
    have h1 : verify_reg (Primary.pidx q 0 l f) "qreg" glob = Except.ok () := by
      simp only [verify_reg, primName, primLine, primFile, hres]
      rw [if_neg (not_not_intro htype)]
      rw [if_neg (by omega)]
    have hflat : distinct_flatten glob glob
        [ONode.oprim (Primary.pidx q 0 l f), ONode.oprim (Primary.pidx q 0 l f)]
        = Except.ok ([(q, 0), (q, 0)], (l : Int), f) := rfl
    have hiff := key glob glob
      [ONode.oprim (Primary.pidx q 0 l f), ONode.oprim (Primary.pidx q 0 l f)]
      [(q, 0), (q, 0)] (l : Int) f hflat
    have hdup : ¬ ([(q, (0 : Int)), (q, 0)] : List (String × Int)).Nodup := by simp
    rcases hvd : verify_distinct glob glob
        [ONode.oprim (Primary.pidx q 0 l f), ONode.oprim (Primary.pidx q 0 l f)]
      with err | u
    · simp only [p_unitary_op_1, h1, except_ok_bind, hvd, except_error_bind]
      rfl
    · rw [hvd] at hiff
      exact absurd (hiff.mp rfl) hdup
  · intro glob q e l f hres htype hsize
    have h1 : verify_reg (Primary.pidx q 0 l f) "qreg" glob = Except.ok () := by
      simp only [verify_reg, primName, primLine, primFile, hres]
      rw [if_neg (not_not_intro htype)]
      rw [if_neg (by omega)]
    have h2 : verify_reg (Primary.pidx q 1 l f) "qreg" glob = Except.ok () := by
      simp only [verify_reg, primName, primLine, primFile, hres]
      rw [if_neg (not_not_intro htype)]
      rw [if_neg (by omega)]
    have hflat : distinct_flatten glob glob
        [ONode.oprim (Primary.pidx q 0 l f), ONode.oprim (Primary.pidx q 1 l f)]
        = Except.ok ([(q, 0), (q, 1)], (l : Int), f) := rfl
    have hiff := key glob glob
      [ONode.oprim (Primary.pidx q 0 l f), ONode.oprim (Primary.pidx q 1 l f)]
      [(q, 0), (q, 1)] (l : Int) f hflat
    have hnd : ([(q, (0 : Int)), (q, 1)] : List (String × Int)).Nodup := by simp
    rcases hvd : verify_distinct glob glob
        [ONode.oprim (Primary.pidx q 0 l f), ONode.oprim (Primary.pidx q 1 l f)]
      with err | u
    · rw [hvd] at hiff
      simp only [Except.isOk, Except.toBool, Bool.false_eq_true, false_iff] at hiff
      exact absurd hnd hiff
    · simp only [p_unitary_op_1, h1, h2, except_ok_bind, hvd]
  · rfl

/-- C4 (witness): the flattening/failure equivalence applied at the
concrete distinct pair `q[0], q[1]` on the size-2 register `q`. -/
theorem C4_witness :
    (verify_distinct qTab qTab [ONode.oprim (Primary.pidx "q" 0 2 "f.qasm"),
        ONode.oprim (Primary.pidx "q" 1 2 "f.qasm")]).isOk = true
      ↔ ([("q", (0 : Int)), ("q", (1 : Int))] : List (String × Int)).Nodup :=
  C4_distinct.1 qTab qTab
    [ONode.oprim (Primary.pidx "q" 0 2 "f.qasm"),
     ONode.oprim (Primary.pidx "q" 1 2 "f.qasm")]
    [("q", 0), ("q", 1)] 2 "f.qasm" rfl

/-- C10: a top-level `CX` over two whole (non-indexed) registers performs
no size-compatibility check: for any two distinctly named declared qregs
`a` and `b`, of arbitrary (possibly different) declared sizes, the
production succeeds and builds the `Cnot` node. -/
theorem C10_cx_whole_registers (glob : Symtab) (a b : String) (ea eb : SymEntry)
    (l1 l2 : Nat) (f1 f2 : String)
    (ha : symLookup glob a = some ea) (hat : ea.type = "qreg")
    (hb : symLookup glob b = some eb) (hbt : eb.type = "qreg")
    (hne : a ≠ b) :
    p_unitary_op_1 (Primary.pid a l1 f1) (Primary.pid b l2 f2) glob glob
      = Except.ok (Node.CnotN (Primary.pid a l1 f1) (Primary.pid b l2 f2)) := by
  have h1 : verify_reg (Primary.pid a l1 f1) "qreg" glob = Except.ok () := by
    simp only [verify_reg, primName, primLine, primFile, ha]
    rw [if_neg (not_not_intro hat)]
  have h2 : verify_reg (Primary.pid b l2 f2) "qreg" glob = Except.ok () := by
    simp only [verify_reg, primName, primLine, primFile, hb]
    rw [if_neg (not_not_intro hbt)]
  have hta : id_tuple_list glob glob a
      = Except.ok ((List.range ea.index.toNat).map (fun (idx : Nat) => (a, (idx : Int)))) := by
    simp only [id_tuple_list, ha]
    rw [if_pos (Or.inl hat)]
  have htb : id_tuple_list glob glob b
      = Except.ok ((List.range eb.index.toNat).map (fun (idx : Nat) => (b, (idx : Int)))) := by
    simp only [id_tuple_list, hb]
    rw [if_pos (Or.inl hbt)]
  have hflat : distinct_flatten glob glob
      [ONode.oprim (Primary.pid a l1 f1), ONode.oprim (Primary.pid b l2 f2)]
      = Except.ok ((List.range ea.index.toNat).map (fun (idx : Nat) => (a, (idx : Int)))
          ++ (List.range eb.index.toNat).map (fun (idx : Nat) => (b, (idx : Int))),
          (l2 : Int), f2) := by
    simp only [distinct_flatten, List.foldlM, distinct_step, hta, htb,
      except_ok_bind, List.nil_append]
    rfl
  have hnd : ((List.range ea.index.toNat).map (fun (idx : Nat) => (a, (idx : Int)))
      ++ (List.range eb.index.toNat).map (fun (idx : Nat) => (b, (idx : Int)))).Nodup := by
    apply List.Nodup.append
    · refine List.Nodup.map ?_ (List.nodup_range _)
      intro i j hij
      simpa using hij
    · refine List.Nodup.map ?_ (List.nodup_range _)
      intro i j hij
      simpa using hij
    · intro x hxa hxb
      rcases List.mem_map.mp hxa with ⟨i, hi, rfl⟩
      rcases List.mem_map.mp hxb with ⟨j, hj, hx⟩
      exact hne (congrArg Prod.fst hx).symm
  have hvd : verify_distinct glob glob
      [ONode.oprim (Primary.pid a l1 f1), ONode.oprim (Primary.pid b l2 f2)]
      = Except.ok () := by
    simp only [verify_distinct, hflat]
    rw [if_neg (not_not_intro ((length_eq_dedup_iff_nodup _).2 hnd))]
  simp only [p_unitary_op_1, h1, h2, except_ok_bind, hvd]

/-- C10 (witness): `CX a, b;` over the whole registers `a` (size 2) and
`b` (size 3) succeeds although the declared sizes differ. -/
theorem C10_witness :
    p_unitary_op_1 (Primary.pid "a" 1 "f.qasm") (Primary.pid "b" 1 "f.qasm") abTab abTab
      = Except.ok (Node.CnotN (Primary.pid "a" 1 "f.qasm") (Primary.pid "b" 1 "f.qasm")) :=
  C10_cx_whole_registers abTab "a" "b" (qregEntry "a" 2 1 "f.qasm")
    (qregEntry "b" 3 1 "f.qasm") 1 1 "f.qasm" "f.qasm" rfl rfl rfl rfl (by decide)
